import Mathlib

/-!
# System probe lifecycle and systemd check

A shallow embedding of two Go sources of the agent:

* `cmd/system-probe/probe.go` (package `main`), embedded in namespace `Probe`;
* `pkg/collector/corechecks/systemd/systemd.go` (package `systemd`), embedded in
  namespace `Systemd`.

Go code with side effects is written in explicit state-passing style.  Calls into
packages that are not part of the embedded sources (`ebpf`, `net`, `yaml`, `regexp`,
`dbus`, the aggregator) are taken as outcomes supplied by a host record; logging calls
have no effect on any value studied here and are left out.
-/

set_option autoImplicit false

namespace Probe

/-! ## Go values -/

/-- Go error value: `Error()` returns `msg`.  The nil error is `none : Option GoError`. -/
structure GoError where
  msg : String
deriving DecidableEq, Repr

/-- Run-time panic of the Go program. -/
inductive Panic where
  | nilDereference
deriving DecidableEq, Repr

/-- The variable `ErrTracerUnsupported = errors.New("tracer unsupported")`. -/
def ErrTracerUnsupported : GoError := ⟨"tracer unsupported"⟩

/-- The call `fmt.Errorf("%s: %s", a, b)` on two error values: the verb `%s` prints
`Error()` of each. -/
def Errorf (a b : GoError) : GoError := ⟨a.msg ++ ": " ++ b.msg⟩

/-- The fields of `config.AgentConfig` that `probe.go` reads. -/
structure AgentConfig where
  ExcludedBPFLinuxVersions : List String
  EnableDebugProfiling : Bool
  SystemProbeExpVarPort : Int
deriving DecidableEq, Repr

/-- A `*ebpf.Tracer` that is not nil, identified by a handle. -/
structure Tracer where
  handle : Nat
deriving DecidableEq, Repr

/-- A `net.Conn` interface value that is not nil (the UDS listener), identified by a
handle. -/
structure Conn where
  handle : Nat
deriving DecidableEq, Repr

/-- The struct `SystemProbe`; a nil pointer or nil interface field is `none`. -/
structure SystemProbe where
  cfg : Option AgentConfig := none
  supported : Bool := false
  tracer : Option Tracer := none
  conn : Option Conn := none
deriving DecidableEq, Repr

/-! ## The world outside `probe.go` -/

/-- Calls that leave `probe.go`, as recorded in the world. -/
inductive Call where
  | IsTracerSupportedByOS (excluded : List String)
  | NewTracer
  | NewUDSListener
  | TracerStop (handle : Nat)
  | ConnStop (handle : Nat)
deriving DecidableEq, Repr

/-- State outside the probe: the calls made so far (oldest first), the handles of the
tracers that are running and of the listeners that are open. -/
structure World where
  calls : List Call := []
  tracers : List Nat := []
  listeners : List Nat := []
deriving DecidableEq, Repr

/-- Outcomes of the three constructors and checks `CreateSystemProbe` calls. -/
structure Host where
  IsTracerSupportedByOS : List String → Bool × Option GoError
  NewTracer : AgentConfig → Except GoError Tracer
  NewUDSListener : AgentConfig → Except GoError Conn

/-- Modelled from the spec: `ebpf.IsTracerSupportedByOS` is not among the sources; the
compatibility gate is a function of host state without side effects that yields a
boolean and a reason.  The call is recorded. -/
def IsTracerSupportedByOS (h : Host) (excluded : List String) (w : World) :
    (Bool × Option GoError) × World :=
  (h.IsTracerSupportedByOS excluded,
    { w with calls := w.calls ++ [Call.IsTracerSupportedByOS excluded] })

/-- Modelled from the spec: `ebpf.IsTracerSupportedByOS` is not among the sources; the
gate "returns false with a human-readable reason if unsupported, true otherwise", so a
false answer always comes with an error that is not nil. -/
def Host.GateContract (h : Host) : Prop :=
  ∀ excluded, (h.IsTracerSupportedByOS excluded).1 = false →
    (h.IsTracerSupportedByOS excluded).2 ≠ none

/-- Modelled from the spec: `ebpf.NewTracer` is not among the sources; on success the
engine is attached to the event source (the tracer runs), on failure nothing is
acquired.  The call is recorded. -/
def NewTracer (h : Host) (cfg : AgentConfig) (w : World) : Except GoError Tracer × World :=
  match h.NewTracer cfg with
  | .ok t => (.ok t, { w with calls := w.calls ++ [Call.NewTracer],
                              tracers := t.handle :: w.tracers })
  | .error e => (.error e, { w with calls := w.calls ++ [Call.NewTracer] })

/-- Modelled from the spec: `net.NewUDSListener` is not among the sources; on success
the transport is bound (the listener is open), on failure nothing is acquired.  The
call is recorded. -/
def NewUDSListener (h : Host) (cfg : AgentConfig) (w : World) : Except GoError Conn × World :=
  match h.NewUDSListener cfg with
  | .ok c => (.ok c, { w with calls := w.calls ++ [Call.NewUDSListener],
                              listeners := c.handle :: w.listeners })
  | .error e => (.error e, { w with calls := w.calls ++ [Call.NewUDSListener] })

/-- Modelled from the spec: `(*ebpf.Tracer).Stop` is not among the sources; it detaches
from the event source and is idempotent.  A nil receiver is dereferenced. -/
def Tracer.Stop (t : Option Tracer) (w : World) : Except Panic World :=
  match t with
  | none => .error Panic.nilDereference
  | some t => .ok { w with calls := w.calls ++ [Call.TracerStop t.handle],
                           tracers := w.tracers.filter (fun x => x != t.handle) }

/-- Modelled from the spec: `Stop` of the listener behind `net.Conn` is not among the
sources; it releases the transport.  A method call on a nil interface value panics. -/
def Conn.Stop (c : Option Conn) (w : World) : Except Panic World :=
  match c with
  | none => .error Panic.nilDereference
  | some c => .ok { w with calls := w.calls ++ [Call.ConnStop c.handle],
                           listeners := w.listeners.filter (fun x => x != c.handle) }

/-! ## `CreateSystemProbe` and `Close` -/

/-- The function `CreateSystemProbe`: returns the pair (probe, error) of the Go function
together with the world after the call; a nil probe is `none`. -/
def CreateSystemProbe (h : Host) (cfg : AgentConfig) (w : World) :
    (Option SystemProbe × Option GoError) × World :=
  let nt : SystemProbe := {}
  match IsTracerSupportedByOS h cfg.ExcludedBPFLinuxVersions w with
  | ((supported, some err), w1) =>
    let _nt : SystemProbe := { nt with supported := supported }
    ((none, some (Errorf ErrTracerUnsupported err)), w1)
  | ((supported, none), w1) =>
    let nt : SystemProbe := { nt with supported := supported }
    match NewTracer h cfg w1 with
    | (.error err, w2) => ((none, some err), w2)
    | (.ok t, w2) =>
      match NewUDSListener h cfg w2 with
      | (.error err, w3) => ((none, some err), w3)
      | (.ok uds, w3) =>
        ((some { nt with tracer := some t, cfg := some cfg, conn := some uds }, none), w3)

/-- The method `(*SystemProbe).Close`: `nt.conn.Stop()` then `nt.tracer.Stop()`.  The
receiver is a pointer; reading `nt.conn` through a nil receiver panics. -/
def SystemProbe.Close (nt : Option SystemProbe) (w : World) : Except Panic World :=
  match nt with
  | none => .error Panic.nilDereference
  | some p =>
    match Conn.Stop p.conn w with
    | .error e => .error e
    | .ok w1 => Tracer.Stop p.tracer w1

/-! ## HTTP plumbing of `Run` -/

/-- The result of `req.URL.Query()`, a `url.Values`: keys with their lists of values. -/
abbrev Values := List (String × List String)

/-- The method `url.Values.Get`: the first value stored under the key, the empty string
when there is none. -/
def Values.Get (v : Values) (key : String) : String :=
  match v.lookup key with
  | none => ""
  | some [] => ""
  | some (x :: _) => x

/-- The part of `*http.Request` the handlers read. -/
structure Request where
  query : Values
deriving DecidableEq, Repr

/-- A byte slice. -/
abbrev Bytes := List Nat

/-- What an `http.ResponseWriter` has been sent: the status code of the header once it
has been written, and the body bytes. -/
structure ResponseWriter where
  status : Option Nat := none
  body : Bytes := []
deriving DecidableEq, Repr

/-- The method `WriteHeader`: the first call fixes the status code, later calls are
superfluous. -/
def ResponseWriter.WriteHeader (w : ResponseWriter) (code : Nat) : ResponseWriter :=
  match w.status with
  | none => { w with status := some code }
  | some _ => w

/-- The method `Write`: a first write without header sends status 200 before the data. -/
def ResponseWriter.Write (w : ResponseWriter) (buf : Bytes) : ResponseWriter :=
  let w1 := w.WriteHeader 200
  { w1 with body := w1.body ++ buf }

/-- The part of package `ebpf` the handlers call: the constant `DEBUGCLIENT` and the
outcome of the four tracer queries.  `C` stands for `ebpf.Connections` and `J` for the
values handed to `json.Marshal`; a query that succeeds yields a value. -/
structure Ebpf (C J : Type) where
  DEBUGCLIENT : String
  GetActiveConnections : String → Except GoError C
  DebugNetworkMaps : Except GoError C
  DebugNetworkState : String → Except GoError J
  GetStats : Except GoError J

/-- Outcomes of `easyjson.Marshal` and `json.Marshal`. -/
structure Marshal (C J : Type) where
  easyjson : C → Except GoError Bytes
  json : J → Except GoError Bytes

/-- The function `getClientID`. -/
def getClientID (DEBUGCLIENT : String) (req : Request) : String :=
  let clientID := DEBUGCLIENT
  let rawCID := req.query.Get "client_id"
  if rawCID != "" then rawCID else clientID

/-- The function `writeConnections`. -/
def writeConnections {C J : Type} (m : Marshal C J) (w : ResponseWriter) (cs : C) :
    ResponseWriter :=
  match m.easyjson cs with
  | .error _ => w.WriteHeader 500
  | .ok buf => w.Write buf

/-- The function `writeAsJSON`. -/
def writeAsJSON {C J : Type} (m : Marshal C J) (w : ResponseWriter) (data : J) :
    ResponseWriter :=
  match m.json data with
  | .error _ => w.WriteHeader 500
  | .ok buf => w.Write buf

/-- Requirement on a served request: the writer `w` holds status 500 and no body exactly
when the pipeline `q` (tracer query, then marshalling) ended in an error, and holds
status 200 with exactly the marshalled bytes as body when the pipeline produced them. -/
def Answers (q : Except GoError Bytes) (w : ResponseWriter) : Prop :=
  ((w.status = some 500 ∧ w.body = []) ↔ ∃ err, q = .error err) ∧
  (∀ buf, q = .ok buf → w.status = some 200 ∧ w.body = buf)

/-- A handler function: the writer after serving the request. -/
abbrev Handler := ResponseWriter → Request → ResponseWriter

/-- The closure registered for `/status`. -/
def handleStatus : Handler := fun w _ => w

/-- The closure registered for `/connections`. -/
def handleConnections {C J : Type} (e : Ebpf C J) (m : Marshal C J) : Handler :=
  fun w req =>
    match e.GetActiveConnections (getClientID e.DEBUGCLIENT req) with
    | .error _ => w.WriteHeader 500
    | .ok cs => writeConnections m w cs

/-- The closure registered for `/debug/net_maps`. -/
def handleNetMaps {C J : Type} (e : Ebpf C J) (m : Marshal C J) : Handler :=
  fun w _ =>
    match e.DebugNetworkMaps with
    | .error _ => w.WriteHeader 500
    | .ok cs => writeConnections m w cs

/-- The closure registered for `/debug/net_state`. -/
def handleNetState {C J : Type} (e : Ebpf C J) (m : Marshal C J) : Handler :=
  fun w req =>
    match e.DebugNetworkState (getClientID e.DEBUGCLIENT req) with
    | .error _ => w.WriteHeader 500
    | .ok stats => writeAsJSON m w stats

/-- The closure registered for `/debug/stats`. -/
def handleStats {C J : Type} (e : Ebpf C J) (m : Marshal C J) : Handler :=
  fun w _ =>
    match e.GetStats with
    | .error _ => w.WriteHeader 500
    | .ok stats => writeAsJSON m w stats

/-- An `http.ServeMux`: the registered patterns with their handlers, in order of
registration. -/
abbrev ServeMux := List (String × Handler)

/-- The method `HandleFunc` on a mux that does not hold the pattern yet. -/
def ServeMux.HandleFunc (mux : ServeMux) (pattern : String) (handler : Handler) : ServeMux :=
  mux ++ [(pattern, handler)]

/-- The patterns registered on a mux. -/
def ServeMux.patterns (mux : ServeMux) : List String := mux.map (fun p => p.1)

/-- The handler a mux selects for a path.  None of the patterns of `probe.go` ends in a
slash, so a pattern matches exactly its own path; without a match the mux answers with
its not-found handler, which is `none` here. -/
def ServeMux.handler (mux : ServeMux) (path : String) : Option Handler :=
  (mux.find? (fun p => p.1 == path)).map (fun p => p.2)

/-- The method `setupDebugProfiling`. -/
def setupDebugProfiling {C J : Type} (e : Ebpf C J) (m : Marshal C J) (httpMux : ServeMux) :
    ServeMux :=
  let httpMux := httpMux.HandleFunc "/status" handleStatus
  let httpMux := httpMux.HandleFunc "/connections" (handleConnections e m)
  let httpMux := httpMux.HandleFunc "/debug/net_maps" (handleNetMaps e m)
  let httpMux := httpMux.HandleFunc "/debug/net_state" (handleNetState e m)
  httpMux.HandleFunc "/debug/stats" (handleStats e m)

/-- What `Run` has set going when it reaches `http.Serve`: the mux served on the
listener of the probe, the heartbeat goroutine, and the port of the expvar server when
one was started. -/
structure Serving where
  listener : Conn
  mux : ServeMux
  heartbeat : Bool
  expvarPort : Option Int

/-- The method `(*SystemProbe).Run`, up to the call of `http.Serve`. -/
def SystemProbe.Run {C J : Type} (e : Ebpf C J) (m : Marshal C J) (nt : SystemProbe) :
    Except Panic Serving :=
  let httpMux : ServeMux := []
  match nt.cfg with
  | none => .error Panic.nilDereference
  | some cfg =>
    let httpMux := if cfg.EnableDebugProfiling then setupDebugProfiling e m httpMux else httpMux
    let heartbeat := true
    let expvarPort := if cfg.SystemProbeExpVarPort > 0 then some cfg.SystemProbeExpVarPort else none
    match nt.conn with
    | none => .error Panic.nilDereference
    | some conn => .ok { listener := conn, mux := httpMux, heartbeat := heartbeat,
                         expvarPort := expvarPort }

/-! ## Concrete hosts used in examples -/

/-- A configuration with debug profiling off. -/
def cfg0 : AgentConfig :=
  { ExcludedBPFLinuxVersions := [], EnableDebugProfiling := false, SystemProbeExpVarPort := 0 }

/-- A host on which everything succeeds. -/
def hostOK : Host :=
  { IsTracerSupportedByOS := fun _ => (true, none)
    NewTracer := fun _ => .ok ⟨7⟩
    NewUDSListener := fun _ => .ok ⟨9⟩ }

/-- The probe that `CreateSystemProbe` returns on `hostOK` for `cfg0`. -/
def probeOK : SystemProbe :=
  { cfg := some cfg0, supported := true, tracer := some (Tracer.mk 7), conn := some (Conn.mk 9) }

/-- A host whose gate answers false with an error. -/
def hostUnsupported : Host :=
  { hostOK with IsTracerSupportedByOS := fun _ => (false, some ⟨"kernel too old"⟩) }

/-- A host on which the tracer starts and the listener cannot be bound. -/
def hostNoSocket : Host :=
  { hostOK with NewUDSListener := fun _ => .error ⟨"bind failed"⟩ }

/-- A host on which the tracer cannot be started. -/
def hostNoTracer : Host :=
  { hostOK with NewTracer := fun _ => .error ⟨"attach failed"⟩ }

end Probe

namespace Systemd

open Probe (GoError)

/-! ## Go values of package `systemd` -/

/-- A Go slice: `none` is the nil slice, `some l` a slice that is not nil. -/
abbrev Slice (α : Type) := Option (List α)

/-- The elements a `range` loop over the slice visits, in order. -/
def Slice.toList {α : Type} (s : Slice α) : List α :=
  match s with
  | none => []
  | some l => l

/-- The built-in `append(s, x)`: the result is never nil. -/
def Slice.append {α : Type} (s : Slice α) (x : α) : Slice α :=
  some (Slice.toList s ++ [x])

/-- The constant `unitActiveState`. -/
def unitActiveState : String := "active"

/-- The fields of `dbus.UnitStatus` the check reads. -/
structure UnitStatus where
  Name : String
  ActiveState : String
  SubState : String := ""
deriving DecidableEq, Repr

/-- A value of type `interface{}` found in a property map. -/
inductive PropValue where
  | uint64 (n : Nat)
  | string (s : String)
  | other
deriving DecidableEq, Repr

/-- A property map `map[string]interface{}`. -/
abbrev Properties := List (String × PropValue)

/-- A compiled `*regexp.Regexp`, identified by the expression it prints. -/
structure Regexp where
  expr : String
deriving DecidableEq, Repr

/-- The struct `systemdInstanceConfig`; an element of `UnitRegexPatterns` is a pointer
`*regexp.Regexp`, `none` when it is nil. -/
structure systemdInstanceConfig where
  UnitNames : Slice String := none
  UnitRegexStrings : Slice String := none
  UnitRegexPatterns : Slice (Option Regexp) := none
deriving DecidableEq, Repr

/-- The struct `systemdInitConfig`. -/
structure systemdInitConfig where
deriving DecidableEq, Repr

/-- The struct `systemdConfig`. -/
structure systemdConfig where
  «instance» : systemdInstanceConfig := {}
  initConf : systemdInitConfig := {}
deriving DecidableEq, Repr

/-- The struct `SystemdCheck`; the embedded `core.CheckBase` holds nothing the check
reads back. -/
structure SystemdCheck where
  config : systemdConfig := {}
deriving DecidableEq, Repr

/-- A call received by the `aggregator.Sender`.  The value of a gauge is a `float64`;
every value the check sends is an integer, and it is recorded as that integer. -/
inductive SenderCall where
  | Gauge (metric : String) (value : Int) (hostname : String) (tags : Slice String)
  | Commit
deriving DecidableEq, Repr

/-- State outside the check during a run: the calls the sender received (oldest first),
the number of clock readings taken, the number of `connClose` calls. -/
structure Outside where
  sent : List SenderCall := []
  clock : Nat := 0
  closed : Nat := 0
deriving DecidableEq, Repr

/-- Outcomes of the calls `Run` makes outside the package: `aggregator.GetSender`,
`dbusNew`, `connListUnits`, the two property queries of the connection, and the
successive readings `timeNow().UnixNano()`. -/
structure Bus where
  GetSender : Option GoError
  dbusNew : Option GoError
  connListUnits : Slice UnitStatus × Option GoError
  GetUnitProperties : String → Properties × Option GoError
  GetUnitTypeProperties : String → String → Properties × Option GoError
  UnixNano : Nat → Int

/-- The method `sender.Gauge`. -/
def Gauge (o : Outside) (metric : String) (value : Int) (hostname : String)
    (tags : Slice String) : Outside :=
  { o with sent := o.sent ++ [SenderCall.Gauge metric value hostname tags] }

/-- The method `sender.Commit`. -/
def Commit (o : Outside) : Outside :=
  { o with sent := o.sent ++ [SenderCall.Commit] }

/-- The call `timeNow().UnixNano()`: the next reading of the clock. -/
def timeNowUnixNano (b : Bus) (o : Outside) : Int × Outside :=
  (b.UnixNano o.clock, { o with clock := o.clock + 1 })

/-- Conversion of an integer to `int64`, with wrap-around. -/
def toInt64 (x : Int) : Int :=
  (x + 2 ^ 63) % 2 ^ 64 - 2 ^ 63

/-- The conversion `float64(x)` of an integer of at most 64 bits, as the integer the
resulting float is equal to: below `2 ^ 53` in magnitude the value is kept, above it is
rounded to 53 significant bits, a tie going to the even significand. -/
def float64 (x : Int) : Int :=
  let n := x.natAbs
  let e := ((List.range 12).find? (fun e => n / 2 ^ e < 2 ^ 53)).getD 11
  let q := n / 2 ^ e
  let r := n % 2 ^ e
  let q := if 2 * r > 2 ^ e ∨ (2 * r = 2 ^ e ∧ q % 2 = 1) then q + 1 else q
  if x < 0 then -((q * 2 ^ e : Nat) : Int) else ((q * 2 ^ e : Nat) : Int)

/-- The function `getUptime`: `nanoNow/1000 - int64(activeEnterTime)` on `int64`; Go
division truncates toward zero. -/
def getUptime (activeEnterTime : Nat) (nanoNow : Int) : Int :=
  toInt64 (Int.tdiv nanoNow 1000 - toInt64 (activeEnterTime : Int))

/-- The function `getNumberProperty`: the type assertion `properties[name].(uint64)`. -/
def getNumberProperty (properties : Properties) (propertyName : String) : Except GoError Nat :=
  match properties.lookup propertyName with
  | some (PropValue.uint64 value) => .ok value
  | _ => .error ⟨"Property " ++ propertyName ++ " is not a uint64"⟩

/-- The function `getStringProperty`: the type assertion `properties[name].(string)`. -/
def getStringProperty (properties : Properties) (propertyName : String) :
    Except GoError String :=
  match properties.lookup propertyName with
  | some (PropValue.string value) => .ok value
  | _ => .error ⟨"Property " ++ propertyName ++ " is not a string"⟩

/-- The function `submitPropertyAsGauge`. -/
def submitPropertyAsGauge (o : Outside) (properties : Properties) (propertyName : String)
    (metric : String) (tags : Slice String) : Outside :=
  match getNumberProperty properties propertyName with
  | .error _ => o
  | .ok value => Gauge o metric (float64 (value : Int)) "" tags

/-- The method `submitUnitMetrics`. -/
def submitUnitMetrics (b : Bus) (o : Outside) (unitName : String) (tags : Slice String) :
    Outside :=
  let properties := (b.GetUnitProperties unitName).1
  let tags :=
    match getStringProperty properties "ActiveState" with
    | .error _ => tags
    | .ok activeState => Slice.append tags ("active_state:" ++ activeState)
  let o := Gauge o "systemd.unit.count" 1 "" tags
  match getNumberProperty properties "ActiveEnterTimestamp" with
  | .error _ => o
  | .ok activeEnterTime =>
    let (nanoNow, o) := timeNowUnixNano b o
    Gauge o "systemd.unit.uptime" (float64 (getUptime activeEnterTime nanoNow)) "" tags

/-- The method `submitServiceMetrics`. -/
def submitServiceMetrics (b : Bus) (o : Outside) (unitName : String) (tags : Slice String) :
    Outside :=
  let properties := (b.GetUnitTypeProperties unitName "Service").1
  let o := submitPropertyAsGauge o properties "CPUUsageNSec" "systemd.unit.cpu" tags
  let o := submitPropertyAsGauge o properties "MemoryCurrent" "systemd.unit.memory" tags
  submitPropertyAsGauge o properties "TasksCurrent" "systemd.unit.tasks" tags

/-- The loop of `submitOverallMetrics` over the listed units: the value of
`activeUnitCounter` after the loop, started from `counter`. -/
def countActive (units : List UnitStatus) (counter : Nat) : Nat :=
  match units with
  | [] => counter
  | unit :: rest =>
    if unit.ActiveState == unitActiveState then countActive rest (counter + 1)
    else countActive rest counter

/-- The function `submitOverallMetrics`: the units are those that `connListUnits`
returned, also when it returned an error with them.  The counter is at most the length
of a slice held in memory, where `float64` keeps the value. -/
def submitOverallMetrics (b : Bus) (o : Outside) : Outside :=
  let units := b.connListUnits.1
  let activeUnitCounter := countActive (Slice.toList units) 0
  Gauge o "systemd.unit.active.count" (activeUnitCounter : Int) "" none

/-- The call `strings.HasSuffix`. -/
def HasSuffix (s suffix : String) : Bool :=
  suffix.data.isSuffixOf s.data

/-- The body of the loop of `Run` over the configured unit names. -/
def runUnit (b : Bus) (o : Outside) (unitName : String) : Outside :=
  let tags : Slice String := some ["unit:" ++ unitName]
  let o := submitUnitMetrics b o unitName tags
  if HasSuffix unitName ".service" then submitServiceMetrics b o unitName tags else o

/-- The function `connClose`, run by the deferred call of `Run`. -/
def connClose (o : Outside) : Outside :=
  { o with closed := o.closed + 1 }

/-- The method `(*SystemdCheck).Run`: the returned error and the state outside after
the run. -/
def SystemdCheck.Run (b : Bus) (c : SystemdCheck) (o : Outside) : Option GoError × Outside :=
  match b.GetSender with
  | some err => (some err, o)
  | none =>
    match b.dbusNew with
    | some err => (some err, o)
    | none =>
      let o := submitOverallMetrics b o
      let o := (Slice.toList c.config.instance.UnitNames).foldl (runUnit b) o
      let o := Commit o
      (none, connClose o)

/-! ## `Configure` -/

/-- What `yaml.Unmarshal` stores from the instance document into the exported fields
of `systemdInstanceConfig`: the keys `unit_names` and `unit_regex` of the two tagged
fields, and the key `unitregexpatterns` under which the untagged field
`UnitRegexPatterns` is decoded.  An entry is `none` when nothing is stored for the key,
else the slice stored in the field. -/
structure InstanceDoc where
  unit_names : Option (Slice String) := none
  unit_regex : Option (Slice String) := none
  unitregexpatterns : Option (Slice (Option Regexp)) := none
deriving DecidableEq, Repr

/-- Outcomes of the calls `Configure` makes outside the package:
`c.CommonConfigure(rawInstance)`, `yaml.Unmarshal(rawInitConfig, ...)`,
`yaml.Unmarshal(rawInstance, ...)` and `regexp.Compile`.  The decoding of the instance
gives what it stored in the fields together with its error: the keys decoded before a
type error are stored although the call fails. -/
structure Loader where
  CommonConfigure : Option GoError
  UnmarshalInitConfig : Option GoError
  UnmarshalInstance : InstanceDoc × Option GoError
  Compile : String → Except GoError Regexp

/-- The effect of `yaml.Unmarshal(rawInstance, &c.config.instance)` on the fields: a
stored key overwrites its field, other fields are left as they are. -/
def InstanceDoc.store (d : InstanceDoc) (i : systemdInstanceConfig) : systemdInstanceConfig :=
  { UnitNames := d.unit_names.getD i.UnitNames,
    UnitRegexStrings := d.unit_regex.getD i.UnitRegexStrings,
    UnitRegexPatterns := d.unitregexpatterns.getD i.UnitRegexPatterns }

/-- The loop of `Configure` over the regex strings. -/
def compileAll (l : Loader) (regexStrings : List String) (patterns : Slice (Option Regexp)) :
    Slice (Option Regexp) :=
  match regexStrings with
  | [] => patterns
  | regexString :: rest =>
    match l.Compile regexString with
    | .error _ => compileAll l rest patterns
    | .ok pattern => compileAll l rest (Slice.append patterns (some pattern))

/-- The method `(*SystemdCheck).Configure`: the check after the call and the returned
error.  `CommonConfigure` acts on the embedded `CheckBase` only, and `systemdInitConfig`
has no field to decode into. -/
def SystemdCheck.Configure (l : Loader) (c : SystemdCheck) : SystemdCheck × Option GoError :=
  match l.CommonConfigure with
  | some err => (c, some err)
  | none =>
    match l.UnmarshalInitConfig with
    | some err => (c, some err)
    | none =>
      let inst := l.UnmarshalInstance.1.store c.config.instance
      match l.UnmarshalInstance.2 with
      | some err => ({ c with config := { c.config with «instance» := inst } }, some err)
      | none =>
        let patterns :=
          compileAll l (Slice.toList inst.UnitRegexStrings) inst.UnitRegexPatterns
        ({ c with config := { c.config with
            «instance» := { inst with UnitRegexPatterns := patterns } } }, none)

/-! ## Concrete inputs used in examples -/

/-- The units of `connListUnitsFake` in the test file. -/
def testUnits : List UnitStatus :=
  [{ Name := "unit1", ActiveState := "active" },
   { Name := "unit2", ActiveState := "active" },
   { Name := "unit3", ActiveState := "inactive" }]

/-- The fakes of `TestSystemdCheck`: the three units, and `CPUShares` as the only
property of every unit. -/
def testBus : Bus :=
  { GetSender := none
    dbusNew := none
    connListUnits := (some testUnits, none)
    GetUnitProperties := fun _ => ([("CPUShares", PropValue.uint64 10)], none)
    GetUnitTypeProperties := fun _ _ => ([], none)
    UnixNano := fun _ => 0 }

/-- Whether a call received by the sender is a `Gauge` call. -/
def SenderCall.isGauge (c : SenderCall) : Bool :=
  match c with
  | SenderCall.Gauge _ _ _ _ => true
  | SenderCall.Commit => false

/-- The instance document of `TestConfiguration`. -/
def testDoc : InstanceDoc :=
  { unit_names := some (some ["ssh.service", "syslog.socket"]),
    unit_regex := some (some ["lvm2-.*", "cloud-.*"]) }

/-- An instance document whose second expression does not compile. -/
def docWithBadRegex : InstanceDoc :=
  { unit_names := some (some ["ssh.service"]),
    unit_regex := some (some ["lvm2-.*", "(", "cloud-.*"]) }

/-- An instance document that sets the key `unitregexpatterns` to a list holding one
empty mapping, decoded as a pointer to the zero `regexp.Regexp`, besides one regex
string. -/
def docWithPatternsKey : InstanceDoc :=
  { unit_regex := some (some ["a"]),
    unitregexpatterns := some (some [some (Regexp.mk "")]) }

/-- A check configured with the unit names of `TestConfiguration`. -/
def checkWithNames : SystemdCheck :=
  { config := { «instance» := { UnitNames := some ["ssh.service", "syslog.socket"] } } }

/-- A loader on which every expression compiles except `"("`. -/
def testLoader (doc : InstanceDoc) : Loader :=
  { CommonConfigure := none
    UnmarshalInitConfig := none
    UnmarshalInstance := (doc, none)
    Compile := fun s => if s = "(" then .error ⟨"missing closing )"⟩ else .ok ⟨s⟩ }

end Systemd

/-! # Theorems about `probe.go` -/

namespace Probe

theorem answers_of_cases (q : Except GoError Bytes) (w : ResponseWriter)
    (h : match q with
         | .error _ => w = { status := some 500, body := [] }
         | .ok buf => w = { status := some 200, body := buf }) :
    Answers q w := by
  cases q with
  | error err =>
    simp only at h
    subst h
    exact ⟨⟨fun _ => ⟨err, rfl⟩, fun _ => ⟨rfl, rfl⟩⟩, fun buf hb => by cases hb⟩
  | ok buf =>
    simp only at h
    subst h
    refine ⟨⟨fun hs => ?_, fun he => ?_⟩, fun b hb => ?_⟩
    · simp at hs
    · obtain ⟨err, he⟩ := he
      cases he
    · cases hb
      exact ⟨rfl, rfl⟩

theorem writeConnections_fresh {C J : Type} (m : Marshal C J) (cs : C) :
    Answers (m.easyjson cs) (writeConnections m {} cs) := by
  apply answers_of_cases
  unfold writeConnections
  cases m.easyjson cs <;> rfl

theorem writeAsJSON_fresh {C J : Type} (m : Marshal C J) (data : J) :
    Answers (m.json data) (writeAsJSON m {} data) := by
  apply answers_of_cases
  unfold writeAsJSON
  cases m.json data <;> rfl

theorem answers_error (err : GoError) :
    Answers (.error err) (ResponseWriter.WriteHeader {} 500) :=
  answers_of_cases _ _ rfl

/-- C1: on every host whose gate keeps its contract (a false answer carries a reason),
for every configuration and every outcome of the gate whose boolean is false, whatever
the error that comes with it, `CreateSystemProbe` returns a nil probe with an error that
is not nil; the gate is the only call it makes, so neither `ebpf.NewTracer` nor
`net.NewUDSListener` is called, and no tracer or listener is added to the world. -/
theorem CreateSystemProbe_gate_false (h : Host) (cfg : AgentConfig) (w : World)
    (hcontract : h.GateContract)
    (hg : (h.IsTracerSupportedByOS cfg.ExcludedBPFLinuxVersions).1 = false) :
    (CreateSystemProbe h cfg w).1.1 = none ∧
    (CreateSystemProbe h cfg w).1.2 ≠ none ∧
    (CreateSystemProbe h cfg w).2.calls =
      w.calls ++ [Call.IsTracerSupportedByOS cfg.ExcludedBPFLinuxVersions] ∧
    Call.NewTracer ∉ (CreateSystemProbe h cfg w).2.calls.drop w.calls.length ∧
    Call.NewUDSListener ∉ (CreateSystemProbe h cfg w).2.calls.drop w.calls.length ∧
    (CreateSystemProbe h cfg w).2.tracers = w.tracers ∧
    (CreateSystemProbe h cfg w).2.listeners = w.listeners := by
  have hreason := hcontract cfg.ExcludedBPFLinuxVersions hg
  rcases hgate : h.IsTracerSupportedByOS cfg.ExcludedBPFLinuxVersions with ⟨b, _ | e⟩
  · rw [hgate] at hreason
    exact absurd rfl hreason
  · simp [CreateSystemProbe, IsTracerSupportedByOS, hgate]

theorem CreateSystemProbe_gate_false_witness :
    hostUnsupported.GateContract ∧
    (hostUnsupported.IsTracerSupportedByOS cfg0.ExcludedBPFLinuxVersions).1 = false ∧
    (CreateSystemProbe hostUnsupported cfg0 {}).1.1 = none ∧
    (CreateSystemProbe hostUnsupported cfg0 {}).1.2 ≠ none ∧
    (CreateSystemProbe hostUnsupported cfg0 {}).2.calls =
      ({} : World).calls ++ [Call.IsTracerSupportedByOS cfg0.ExcludedBPFLinuxVersions] :=
  ⟨fun _ _ => by simp [hostUnsupported], rfl,
   (CreateSystemProbe_gate_false hostUnsupported cfg0 {}
      (fun _ _ => by simp [hostUnsupported]) rfl).1,
   (CreateSystemProbe_gate_false hostUnsupported cfg0 {}
      (fun _ _ => by simp [hostUnsupported]) rfl).2.1,
   (CreateSystemProbe_gate_false hostUnsupported cfg0 {}
      (fun _ _ => by simp [hostUnsupported]) rfl).2.2.1⟩

/-- C2: for every error `e` that the gate returns (whatever boolean comes with it),
`CreateSystemProbe` returns a nil probe and the error whose message is the message of
`ErrTracerUnsupported`, then `": "`, then the message of `e`; the message starts with
`"tracer unsupported"`; the gate is the only call made, so no tracer and no listener is
constructed. -/
theorem CreateSystemProbe_gate_error_message (h : Host) (cfg : AgentConfig) (w : World)
    (b : Bool) (e : GoError)
    (hg : h.IsTracerSupportedByOS cfg.ExcludedBPFLinuxVersions = (b, some e)) :
    (CreateSystemProbe h cfg w).1.1 = none ∧
    (CreateSystemProbe h cfg w).1.2 = some ⟨ErrTracerUnsupported.msg ++ ": " ++ e.msg⟩ ∧
    (∀ err, (CreateSystemProbe h cfg w).1.2 = some err →
      "tracer unsupported".data <+: err.msg.data) ∧
    (CreateSystemProbe h cfg w).2.calls =
      w.calls ++ [Call.IsTracerSupportedByOS cfg.ExcludedBPFLinuxVersions] ∧
    Call.NewTracer ∉ (CreateSystemProbe h cfg w).2.calls.drop w.calls.length ∧
    Call.NewUDSListener ∉ (CreateSystemProbe h cfg w).2.calls.drop w.calls.length ∧
    (CreateSystemProbe h cfg w).2.tracers = w.tracers ∧
    (CreateSystemProbe h cfg w).2.listeners = w.listeners := by
  have hr : CreateSystemProbe h cfg w =
      ((none, some ⟨ErrTracerUnsupported.msg ++ ": " ++ e.msg⟩),
        { w with calls := w.calls ++ [Call.IsTracerSupportedByOS cfg.ExcludedBPFLinuxVersions] }) := by
    simp [CreateSystemProbe, IsTracerSupportedByOS, hg, Errorf]
  rw [hr]
  refine ⟨rfl, rfl, ?_, rfl, ?_, ?_, rfl, rfl⟩
  · intro err herr
    simp only [Option.some.injEq] at herr
    subst herr
    simp only [ErrTracerUnsupported, String.data_append, List.append_assoc]
    exact List.prefix_append _ _
  · simp
  · simp

theorem CreateSystemProbe_gate_error_message_witness :
    (CreateSystemProbe hostUnsupported cfg0 {}).1.2 =
      some ⟨"tracer unsupported: kernel too old"⟩ :=
  (CreateSystemProbe_gate_error_message hostUnsupported cfg0 {} false
    ⟨"kernel too old"⟩ rfl).2.1

/-- C3, counterexample: when `ebpf.NewTracer` succeeds and `net.NewUDSListener` fails,
`CreateSystemProbe` returns the error with a nil probe while the tracer it created is
still running; `Stop` has not been called on it. -/
theorem CreateSystemProbe_listener_failure_leaves_tracer :
    (CreateSystemProbe hostNoSocket cfg0 {}).1 = (none, some ⟨"bind failed"⟩) ∧
    7 ∈ (CreateSystemProbe hostNoSocket cfg0 {}).2.tracers ∧
    Call.NewTracer ∈ (CreateSystemProbe hostNoSocket cfg0 {}).2.calls ∧
    Call.TracerStop 7 ∉ (CreateSystemProbe hostNoSocket cfg0 {}).2.calls := by
  decide

/-- C3, amended: for every call of `CreateSystemProbe` that returns an error, the probe
is nil and the call leaves no listener open.  When the gate returns an error, the
returned error is `ErrTracerUnsupported` joined with it and nothing was acquired; when
`ebpf.NewTracer` fails, its error is returned and nothing was acquired; otherwise
`ebpf.NewTracer` succeeded and `net.NewUDSListener` failed: the error of the listener is
returned, and the tracer that was created is not stopped by `CreateSystemProbe`, it is
still running when the call returns. -/
theorem CreateSystemProbe_failure_resources (h : Host) (cfg : AgentConfig) (w : World)
    (herr : (CreateSystemProbe h cfg w).1.2 ≠ none) :
    (CreateSystemProbe h cfg w).1.1 = none ∧
    (CreateSystemProbe h cfg w).2.listeners = w.listeners ∧
    (∀ e, (h.IsTracerSupportedByOS cfg.ExcludedBPFLinuxVersions).2 = some e →
      (CreateSystemProbe h cfg w).1.2 = some (Errorf ErrTracerUnsupported e) ∧
      (CreateSystemProbe h cfg w).2.tracers = w.tracers) ∧
    (∀ e, (h.IsTracerSupportedByOS cfg.ExcludedBPFLinuxVersions).2 = none →
      h.NewTracer cfg = .error e →
      (CreateSystemProbe h cfg w).1.2 = some e ∧
      (CreateSystemProbe h cfg w).2.tracers = w.tracers) ∧
    (∀ t, (h.IsTracerSupportedByOS cfg.ExcludedBPFLinuxVersions).2 = none →
      h.NewTracer cfg = .ok t →
      (∃ e, h.NewUDSListener cfg = .error e ∧ (CreateSystemProbe h cfg w).1.2 = some e) ∧
      (CreateSystemProbe h cfg w).2.tracers = t.handle :: w.tracers ∧
      t.handle ∈ (CreateSystemProbe h cfg w).2.tracers ∧
      Call.TracerStop t.handle ∉ (CreateSystemProbe h cfg w).2.calls.drop w.calls.length) := by
  rcases hg : h.IsTracerSupportedByOS cfg.ExcludedBPFLinuxVersions with ⟨b, _ | e⟩
  · rcases ht : h.NewTracer cfg with e | t
    · simp [CreateSystemProbe, IsTracerSupportedByOS, NewTracer, hg, ht]
    · rcases hu : h.NewUDSListener cfg with e | c
      · simp [CreateSystemProbe, IsTracerSupportedByOS, NewTracer, NewUDSListener, hg, ht, hu]
      · simp [CreateSystemProbe, IsTracerSupportedByOS, NewTracer, NewUDSListener, hg, ht, hu]
          at herr
  · simp [CreateSystemProbe, IsTracerSupportedByOS, hg]

theorem CreateSystemProbe_failure_resources_witness :
    (CreateSystemProbe hostNoSocket cfg0 {}).1.2 ≠ none ∧
    (CreateSystemProbe hostNoSocket cfg0 {}).1.1 = none ∧
    (CreateSystemProbe hostNoSocket cfg0 {}).2.listeners = [] ∧
    (∃ e, hostNoSocket.NewUDSListener cfg0 = .error e ∧
      (CreateSystemProbe hostNoSocket cfg0 {}).1.2 = some e) ∧
    (CreateSystemProbe hostNoSocket cfg0 {}).2.tracers = [7] :=
  ⟨by decide,
   (CreateSystemProbe_failure_resources hostNoSocket cfg0 {} (by decide)).1,
   (CreateSystemProbe_failure_resources hostNoSocket cfg0 {} (by decide)).2.1,
   ((CreateSystemProbe_failure_resources hostNoSocket cfg0 {} (by decide)).2.2.2.2
      ⟨7⟩ rfl rfl).1,
   ((CreateSystemProbe_failure_resources hostNoSocket cfg0 {} (by decide)).2.2.2.2
      ⟨7⟩ rfl rfl).2.1⟩

/-- C4, evaluation at the failing input: on a probe with tracer and listener set, `Run`
reaches `http.Serve` with a mux that has a handler for `/connections` exactly when
`EnableDebugProfiling` is true; when the flag is false the mux has no registered pattern
at all.  So it is for the probe that `CreateSystemProbe` returns for `cfg0`, whose flag
is false. -/
theorem Run_serves_connections_only_with_debug_profiling {C J : Type} (e : Ebpf C J)
    (m : Marshal C J) (cfg : AgentConfig) (supported : Bool) (t : Tracer) (c : Conn) :
    (∃ sv, SystemProbe.Run e m
        { cfg := some cfg, supported := supported, tracer := some t, conn := some c } = .ok sv ∧
      sv.listener = c ∧
      (sv.mux.handler "/connections").isSome = cfg.EnableDebugProfiling ∧
      sv.mux.patterns =
        if cfg.EnableDebugProfiling then
          ["/status", "/connections", "/debug/net_maps", "/debug/net_state", "/debug/stats"]
        else []) ∧
    cfg0.EnableDebugProfiling = false ∧
    (∃ nt sv, (CreateSystemProbe hostOK cfg0 {}).1 = (some nt, none) ∧
      SystemProbe.Run e m nt = .ok sv ∧
      sv.mux.patterns = [] ∧
      (sv.mux.handler "/connections").isNone = true) := by
  refine ⟨⟨_, rfl, rfl, ?_, ?_⟩, rfl, _, _, rfl, rfl, rfl, rfl⟩
  · cases hd : cfg.EnableDebugProfiling <;>
      simp [ServeMux.handler, setupDebugProfiling, ServeMux.HandleFunc]
  · cases hd : cfg.EnableDebugProfiling <;>
      simp [ServeMux.patterns, setupDebugProfiling, ServeMux.HandleFunc]

/-- C5: `getClientID` returns the value of the `client_id` query parameter when that
value is not empty, and `DEBUGCLIENT` when the parameter is absent, has no value, or has
the empty string as its value; it returns nothing else. -/
theorem getClientID_spec (DEBUGCLIENT : String) (req : Request) :
    (req.query.Get "client_id" ≠ "" →
      getClientID DEBUGCLIENT req = req.query.Get "client_id") ∧
    (req.query.Get "client_id" = "" → getClientID DEBUGCLIENT req = DEBUGCLIENT) ∧
    (req.query.lookup "client_id" = none → getClientID DEBUGCLIENT req = DEBUGCLIENT) ∧
    (req.query.lookup "client_id" = some [] → getClientID DEBUGCLIENT req = DEBUGCLIENT) ∧
    (∀ rest, req.query.lookup "client_id" = some ("" :: rest) →
      getClientID DEBUGCLIENT req = DEBUGCLIENT) ∧
    (∀ v rest, v ≠ "" → req.query.lookup "client_id" = some (v :: rest) →
      getClientID DEBUGCLIENT req = v) ∧
    (getClientID DEBUGCLIENT req = req.query.Get "client_id" ∨
      getClientID DEBUGCLIENT req = DEBUGCLIENT) := by
  refine ⟨?_, ?_, ?_, ?_, ?_, ?_, ?_⟩
  · intro h
    simp [getClientID, h]
  · intro h
    simp [getClientID, h]
  · intro h
    simp [getClientID, Values.Get, h]
  · intro h
    simp [getClientID, Values.Get, h]
  · intro rest h
    simp [getClientID, Values.Get, h]
  · intro v rest hv h
    simp [getClientID, Values.Get, h, hv]
  · by_cases h : req.query.Get "client_id" = ""
    · right
      simp [getClientID, h]
    · left
      simp [getClientID, h]

/-- C6: each of the four query handlers, serving any request on a fresh writer, leaves
status 500 and no body exactly when the tracer query or the marshalling of its result
returned an error, and otherwise leaves status 200 with exactly the marshalled result
of the tracer query as body. -/
theorem query_handlers_answer {C J : Type} (e : Ebpf C J) (m : Marshal C J) (req : Request) :
    Answers ((e.GetActiveConnections (getClientID e.DEBUGCLIENT req)).bind m.easyjson)
      (handleConnections e m {} req) ∧
    Answers (e.DebugNetworkMaps.bind m.easyjson) (handleNetMaps e m {} req) ∧
    Answers ((e.DebugNetworkState (getClientID e.DEBUGCLIENT req)).bind m.json)
      (handleNetState e m {} req) ∧
    Answers (e.GetStats.bind m.json) (handleStats e m {} req) := by
  refine ⟨?_, ?_, ?_, ?_⟩
  · unfold handleConnections
    cases e.GetActiveConnections (getClientID e.DEBUGCLIENT req) with
    | error err => exact answers_error err
    | ok cs => exact writeConnections_fresh m cs
  · unfold handleNetMaps
    cases e.DebugNetworkMaps with
    | error err => exact answers_error err
    | ok cs => exact writeConnections_fresh m cs
  · unfold handleNetState
    cases e.DebugNetworkState (getClientID e.DEBUGCLIENT req) with
    | error err => exact answers_error err
    | ok stats => exact writeAsJSON_fresh m stats
  · unfold handleStats
    cases e.GetStats with
    | error err => exact answers_error err
    | ok stats => exact writeAsJSON_fresh m stats

/-- C7, counterexample: `Close` panics on the nil probe that `CreateSystemProbe` returns
on failure, and on a probe whose tracer and conn are unset. -/
theorem Close_panics_on_nil_probe :
    (CreateSystemProbe hostNoTracer cfg0 {}).1.1 = none ∧
    SystemProbe.Close (CreateSystemProbe hostNoTracer cfg0 {}).1.1
      (CreateSystemProbe hostNoTracer cfg0 {}).2 = .error Panic.nilDereference ∧
    SystemProbe.Close (some {}) {} = .error Panic.nilDereference :=
  ⟨rfl, rfl, rfl⟩

/-- C7, amended: on a probe returned by a successful `CreateSystemProbe`, `Close` does
not panic and leaves both the listener and the tracer of the probe stopped, and a second
`Close` after it does the same; on the nil probe and on a probe whose conn is unset,
`Close` panics with a nil dereference. -/
theorem Close_after_successful_create (h : Host) (cfg : AgentConfig) (w w1 : World)
    (nt : SystemProbe) (hc : CreateSystemProbe h cfg w = ((some nt, none), w1)) :
    (∃ t c w2 w3, nt.tracer = some t ∧ nt.conn = some c ∧
      SystemProbe.Close (some nt) w1 = .ok w2 ∧
      t.handle ∉ w2.tracers ∧ c.handle ∉ w2.listeners ∧
      SystemProbe.Close (some nt) w2 = .ok w3 ∧
      t.handle ∉ w3.tracers ∧ c.handle ∉ w3.listeners) ∧
    (∀ w0, SystemProbe.Close none w0 = .error Panic.nilDereference) ∧
    (∀ p w0, p.conn = none → SystemProbe.Close (some p) w0 = .error Panic.nilDereference) := by
  refine ⟨?_, fun _ => rfl, fun p w0 hp => by simp [SystemProbe.Close, Conn.Stop, hp]⟩
  rcases hg : h.IsTracerSupportedByOS cfg.ExcludedBPFLinuxVersions with ⟨b, _ | e⟩
  · rcases ht : h.NewTracer cfg with e | t
    · simp [CreateSystemProbe, IsTracerSupportedByOS, NewTracer, hg, ht] at hc
    · rcases hu : h.NewUDSListener cfg with e | c
      · simp [CreateSystemProbe, IsTracerSupportedByOS, NewTracer, NewUDSListener, hg, ht, hu]
          at hc
      · simp [CreateSystemProbe, IsTracerSupportedByOS, NewTracer, NewUDSListener, hg, ht, hu]
          at hc
        obtain ⟨hnt, _⟩ := hc
        subst hnt
        refine ⟨t, c, _, _, rfl, rfl, rfl, ?_, ?_, rfl, ?_, ?_⟩ <;>
          simp [List.mem_filter]
  · simp [CreateSystemProbe, IsTracerSupportedByOS, hg] at hc

theorem Close_after_successful_create_witness :
    ∃ t c w2 w3, probeOK.tracer = some t ∧ probeOK.conn = some c ∧
      SystemProbe.Close (some probeOK) (CreateSystemProbe hostOK cfg0 {}).2 = .ok w2 ∧
      t.handle ∉ w2.tracers ∧ c.handle ∉ w2.listeners ∧
      SystemProbe.Close (some probeOK) w2 = .ok w3 ∧
      t.handle ∉ w3.tracers ∧ c.handle ∉ w3.listeners :=
  (Close_after_successful_create hostOK cfg0 {} _ _ rfl).1

end Probe

/-! # Theorems about `systemd.go` -/

namespace Systemd

open Probe (GoError)

theorem countActive_eq (units : List UnitStatus) (counter : Nat) :
    countActive units counter =
      counter + (units.filter (fun u => decide (u.ActiveState = "active"))).length := by
  induction units generalizing counter with
  | nil => simp [countActive]
  | cons u rest ih =>
    by_cases hu : u.ActiveState = "active"
    · simp [countActive, unitActiveState, hu, ih]
      omega
    · simp [countActive, unitActiveState, hu, ih]

theorem toList_append {α : Type} (s : Slice α) (x : α) :
    Slice.toList (Slice.append s x) = Slice.toList s ++ [x] := rfl

theorem toList_compileAll (l : Loader) (regexStrings : List String)
    (patterns : Slice (Option Regexp)) :
    Slice.toList (compileAll l regexStrings patterns) =
      Slice.toList patterns ++
        (regexStrings.filterMap (fun s => (l.Compile s).toOption)).map some := by
  induction regexStrings generalizing patterns with
  | nil => simp [compileAll]
  | cons s rest ih =>
    cases hs : l.Compile s with
    | error err =>
      simp only [compileAll, hs, ih, List.filterMap_cons]
      rfl
    | ok pattern =>
      simp only [compileAll, hs, ih, List.filterMap_cons, toList_append,
        List.append_assoc, List.singleton_append]
      rfl

theorem filterMap_length_of_all_ok (l : Loader) (regexStrings : List String)
    (hall : ∀ s ∈ regexStrings, ∃ pattern, l.Compile s = .ok pattern) :
    (regexStrings.filterMap (fun s => (l.Compile s).toOption)).length = regexStrings.length := by
  induction regexStrings with
  | nil => rfl
  | cons s rest ih =>
    obtain ⟨pattern, hp⟩ := hall s (List.mem_cons_self s rest)
    have hrest := ih (fun x hx => hall x (List.mem_cons_of_mem s hx))
    have hopt : (l.Compile s).toOption = some pattern := by rw [hp]; rfl
    simp only [List.filterMap_cons, hopt, List.length_cons, hrest]

theorem Configure_fresh (l : Loader) (doc : InstanceDoc)
    (hc : l.CommonConfigure = none) (hi : l.UnmarshalInitConfig = none)
    (hd : l.UnmarshalInstance = (doc, none)) :
    SystemdCheck.Configure l {} =
      ({ config := { «instance» :=
          { UnitNames := doc.unit_names.getD none,
            UnitRegexStrings := doc.unit_regex.getD none,
            UnitRegexPatterns :=
              compileAll l (Slice.toList (doc.unit_regex.getD none))
                (doc.unitregexpatterns.getD none) } } }, none) := by
  simp only [SystemdCheck.Configure, hc, hi, hd, InstanceDoc.store]

/-- C8: for every outcome of the unit listing, `submitOverallMetrics` adds exactly one
call to what the sender received, the gauge `systemd.unit.active.count` with empty
hostname and nil tags, whose value is the number of listed units with `ActiveState`
equal to `"active"`; nothing else outside changes; on the three units of the test the
value is 2. -/
theorem submitOverallMetrics_spec (b : Bus) (o : Outside) :
    (submitOverallMetrics b o).sent = o.sent ++
      [SenderCall.Gauge "systemd.unit.active.count"
        (((Slice.toList b.connListUnits.1).filter
          (fun u => decide (u.ActiveState = "active"))).length : Int) "" none] ∧
    (submitOverallMetrics b o).clock = o.clock ∧
    (submitOverallMetrics b o).closed = o.closed ∧
    (submitOverallMetrics testBus o).sent =
      o.sent ++ [SenderCall.Gauge "systemd.unit.active.count" 2 "" none] := by
  refine ⟨?_, rfl, rfl, ?_⟩
  · simp [submitOverallMetrics, Gauge, countActive_eq]
  · simp [submitOverallMetrics, Gauge, countActive_eq, testBus, testUnits, Slice.toList]


theorem submitPropertyAsGauge_sent (o : Outside) (properties : Properties)
    (propertyName metric : String) (tags : Slice String) (x : SenderCall) (hx : x ∈ o.sent) :
    x ∈ (submitPropertyAsGauge o properties propertyName metric tags).sent := by
  unfold submitPropertyAsGauge
  cases getNumberProperty properties propertyName with
  | error e => exact hx
  | ok value => simp [Gauge, hx]

theorem submitServiceMetrics_sent (b : Bus) (o : Outside) (unitName : String)
    (tags : Slice String) (x : SenderCall) (hx : x ∈ o.sent) :
    x ∈ (submitServiceMetrics b o unitName tags).sent := by
  unfold submitServiceMetrics
  exact submitPropertyAsGauge_sent _ _ _ _ _ _
    (submitPropertyAsGauge_sent _ _ _ _ _ _ (submitPropertyAsGauge_sent _ _ _ _ _ _ hx))

theorem submitUnitMetrics_sent (b : Bus) (o : Outside) (unitName : String)
    (tags : Slice String) (x : SenderCall) (hx : x ∈ o.sent) :
    x ∈ (submitUnitMetrics b o unitName tags).sent := by
  rcases h1 : getStringProperty (b.GetUnitProperties unitName).1 "ActiveState" with e1 | st <;>
    rcases h2 : getNumberProperty (b.GetUnitProperties unitName).1 "ActiveEnterTimestamp"
      with e2 | n <;>
    simp [submitUnitMetrics, h1, h2, Gauge, timeNowUnixNano, hx]

theorem submitUnitMetrics_count_error (b : Bus) (o : Outside) (unitName : String)
    (tags : Slice String) (e : GoError)
    (hp : getStringProperty (b.GetUnitProperties unitName).1 "ActiveState" = .error e) :
    SenderCall.Gauge "systemd.unit.count" 1 "" tags ∈
      (submitUnitMetrics b o unitName tags).sent := by
  rcases h2 : getNumberProperty (b.GetUnitProperties unitName).1 "ActiveEnterTimestamp"
      with e2 | n <;>
    simp [submitUnitMetrics, hp, h2, Gauge, timeNowUnixNano]

theorem submitUnitMetrics_count_ok (b : Bus) (o : Outside) (unitName : String)
    (tags : Slice String) (state : String)
    (hp : getStringProperty (b.GetUnitProperties unitName).1 "ActiveState" = .ok state) :
    SenderCall.Gauge "systemd.unit.count" 1 "" (Slice.append tags ("active_state:" ++ state)) ∈
      (submitUnitMetrics b o unitName tags).sent := by
  rcases h2 : getNumberProperty (b.GetUnitProperties unitName).1 "ActiveEnterTimestamp"
      with e2 | n <;>
    simp [submitUnitMetrics, hp, h2, Gauge, timeNowUnixNano]

theorem runUnit_sent (b : Bus) (o : Outside) (unitName : String) (x : SenderCall)
    (hx : x ∈ (submitUnitMetrics b o unitName (some ["unit:" ++ unitName])).sent) :
    x ∈ (runUnit b o unitName).sent := by
  unfold runUnit
  by_cases hsfx : HasSuffix unitName ".service" = true
  · simp only [hsfx, if_true]
    exact submitServiceMetrics_sent _ _ _ _ _ hx
  · simp only [hsfx]
    exact hx

theorem foldl_runUnit_sent (b : Bus) (names : List String) (o : Outside) (x : SenderCall)
    (hx : x ∈ o.sent) : x ∈ (names.foldl (runUnit b) o).sent := by
  induction names generalizing o with
  | nil => exact hx
  | cons n rest ih =>
    exact ih _ (runUnit_sent b o n x (submitUnitMetrics_sent b o n _ x hx))

theorem foldl_runUnit_mem (b : Bus) (names : List String) (o : Outside) (name : String)
    (hname : name ∈ names) (x : SenderCall)
    (hx : ∀ o1, x ∈ (submitUnitMetrics b o1 name (some ["unit:" ++ name])).sent) :
    x ∈ (names.foldl (runUnit b) o).sent := by
  induction names generalizing o with
  | nil => cases hname
  | cons n rest ih =>
    rcases List.mem_cons.mp hname with h | h
    · subst h
      exact foldl_runUnit_sent b rest _ x (runUnit_sent b o name x (hx o))
    · exact ih _ h

theorem Run_sent (b : Bus) (c : SystemdCheck) (o : Outside)
    (hs : b.GetSender = none) (hd : b.dbusNew = none) :
    SystemdCheck.Run b c o =
      (none, connClose (Commit ((Slice.toList c.config.instance.UnitNames).foldl (runUnit b)
        (submitOverallMetrics b o)))) := by
  simp only [SystemdCheck.Run, hs, hd]

/-- C9, counterexample: a check configured with an empty instance document, run on the
three units of the test, makes the sender receive one gauge only,
`systemd.unit.active.count` with value 2, then `Commit`: no `systemd.unit.count` gauge
is submitted for a listed unit, and the number of gauges is 1 where the claim counts
`len(L) + 1 = 4`. -/
theorem Run_empty_config_on_test_units :
    (SystemdCheck.Configure (testLoader {}) {}).2 = none ∧
    (SystemdCheck.Configure (testLoader {}) {}).1.config.instance.UnitNames = none ∧
    testBus.connListUnits.1 = some testUnits ∧
    (SystemdCheck.Run testBus (SystemdCheck.Configure (testLoader {}) {}).1 {}).1 = none ∧
    (SystemdCheck.Run testBus (SystemdCheck.Configure (testLoader {}) {}).1 {}).2.sent =
      [SenderCall.Gauge "systemd.unit.active.count" 2 "" none, SenderCall.Commit] ∧
    SenderCall.Gauge "systemd.unit.count" 1 "" (some ["unit:unit1"]) ∉
      (SystemdCheck.Run testBus (SystemdCheck.Configure (testLoader {}) {}).1 {}).2.sent ∧
    ((SystemdCheck.Run testBus
      (SystemdCheck.Configure (testLoader {}) {}).1 {}).2.sent.filter
        SenderCall.isGauge).length ≠ testUnits.length + 1 := by
  decide

/-- C9, amended: when the sender and the bus connection are obtained, `Run` returns no
error and submits the gauge `systemd.unit.count` with value 1 and empty hostname for
each configured unit name, not for each unit of the listing: with tags
`["unit:" + name]` when the properties of the unit hold no string `ActiveState`, and with
tags `["unit:" + name, "active_state:" + state]` when they hold the string `state`.  For
a check without configured unit names, as after an empty instance configuration, and
for every outcome of the unit listing, the run submits one gauge only,
`systemd.unit.active.count`, followed by one `Commit`. -/
theorem Run_submits_per_configured_unit (b : Bus) (c : SystemdCheck) (o : Outside)
    (hs : b.GetSender = none) (hd : b.dbusNew = none) :
    (SystemdCheck.Run b c o).1 = none ∧
    (∀ name ∈ Slice.toList c.config.instance.UnitNames,
      (∀ e, getStringProperty (b.GetUnitProperties name).1 "ActiveState" = .error e →
        SenderCall.Gauge "systemd.unit.count" 1 "" (some ["unit:" ++ name]) ∈
          (SystemdCheck.Run b c o).2.sent) ∧
      (∀ state, getStringProperty (b.GetUnitProperties name).1 "ActiveState" = .ok state →
        SenderCall.Gauge "systemd.unit.count" 1 ""
            (some ["unit:" ++ name, "active_state:" ++ state]) ∈
          (SystemdCheck.Run b c o).2.sent)) ∧
    (Slice.toList c.config.instance.UnitNames = [] →
      (SystemdCheck.Run b c o).2.sent = o.sent ++
        [SenderCall.Gauge "systemd.unit.active.count"
          (((Slice.toList b.connListUnits.1).filter
            (fun u => decide (u.ActiveState = "active"))).length : Int) "" none,
         SenderCall.Commit]) := by
  rw [Run_sent b c o hs hd]
  refine ⟨rfl, ?_, ?_⟩
  · intro name hname
    refine ⟨fun e he => ?_, fun state hstate => ?_⟩
    · have hmem := foldl_runUnit_mem b _ (submitOverallMetrics b o) name hname _
        (fun o1 => submitUnitMetrics_count_error b o1 name _ e he)
      simp [connClose, Commit, hmem]
    · have hmem := foldl_runUnit_mem b _ (submitOverallMetrics b o) name hname _
        (fun o1 => submitUnitMetrics_count_ok b o1 name _ state hstate)
      have htags : Slice.append (some ["unit:" ++ name]) ("active_state:" ++ state) =
          some ["unit:" ++ name, "active_state:" ++ state] := rfl
      rw [htags] at hmem
      simp [connClose, Commit, hmem]
  · intro hnames
    rw [hnames]
    simp [connClose, Commit, submitOverallMetrics, Gauge, countActive_eq]

theorem Run_submits_per_configured_unit_witness :
    SenderCall.Gauge "systemd.unit.count" 1 "" (some ["unit:" ++ "syslog.socket"]) ∈
      (SystemdCheck.Run testBus checkWithNames {}).2.sent :=
  ((Run_submits_per_configured_unit testBus checkWithNames {} rfl rfl).2.1
    "syslog.socket" (by decide)).1 _ rfl

/-- C10, counterexample: for the instance configuration with one `unit_regex` string
and the key `unitregexpatterns` holding one empty mapping, `Configure` succeeds on a
fresh check and leaves two patterns, the decoded one followed by the compiled string,
where the compiled forms of the `unit_regex` strings are one pattern. -/
theorem Configure_keeps_decoded_patterns :
    (SystemdCheck.Configure (testLoader docWithPatternsKey) {}).2 = none ∧
    (SystemdCheck.Configure (testLoader docWithPatternsKey) {}).1.config.instance.UnitRegexStrings =
      some ["a"] ∧
    (SystemdCheck.Configure (testLoader docWithPatternsKey)
        {}).1.config.instance.UnitRegexPatterns =
      some [some (Regexp.mk ""), some (Regexp.mk "a")] ∧
    (testLoader docWithPatternsKey).Compile "a" = .ok (Regexp.mk "a") ∧
    Slice.toList (SystemdCheck.Configure (testLoader docWithPatternsKey)
        {}).1.config.instance.UnitRegexPatterns ≠
      (["a"].filterMap (fun s => ((testLoader docWithPatternsKey).Compile s).toOption)).map
        some := by
  refine ⟨rfl, rfl, rfl, rfl, ?_⟩
  decide

/-- C10, amended: for every instance configuration that `CommonConfigure` accepts and
`yaml.Unmarshal` decodes without error, `Configure` on a fresh check succeeds and leaves
`UnitNames` equal to the configured `unit_names`, `UnitRegexStrings` equal to the
configured `unit_regex`, and `UnitRegexPatterns` holding the patterns decoded from the
key `unitregexpatterns`, if the document has it, followed by the compiled forms of
exactly the `unit_regex` strings that compile, in their configured order, a string that
does not compile being skipped without making `Configure` fail.  For a document without
the key `unitregexpatterns` the patterns are exactly those compiled forms, one pattern
per string when all compile; with an empty document the three fields are nil. -/
theorem Configure_spec (l : Loader) (doc : InstanceDoc)
    (hc : l.CommonConfigure = none) (hi : l.UnmarshalInitConfig = none)
    (hd : l.UnmarshalInstance = (doc, none)) :
    (SystemdCheck.Configure l {}).2 = none ∧
    (SystemdCheck.Configure l {}).1.config.instance.UnitNames = doc.unit_names.getD none ∧
    (SystemdCheck.Configure l {}).1.config.instance.UnitRegexStrings =
      doc.unit_regex.getD none ∧
    Slice.toList (SystemdCheck.Configure l {}).1.config.instance.UnitRegexPatterns =
      Slice.toList (doc.unitregexpatterns.getD none) ++
        ((Slice.toList (doc.unit_regex.getD none)).filterMap
          (fun s => (l.Compile s).toOption)).map some ∧
    (doc.unitregexpatterns = none →
      Slice.toList (SystemdCheck.Configure l {}).1.config.instance.UnitRegexPatterns =
        ((Slice.toList (doc.unit_regex.getD none)).filterMap
          (fun s => (l.Compile s).toOption)).map some ∧
      ((∀ s ∈ Slice.toList (doc.unit_regex.getD none), ∃ pattern, l.Compile s = .ok pattern) →
        (Slice.toList (SystemdCheck.Configure l {}).1.config.instance.UnitRegexPatterns).length =
          (Slice.toList (doc.unit_regex.getD none)).length)) ∧
    (doc = {} →
      (SystemdCheck.Configure l {}).1.config.instance.UnitNames = none ∧
      (SystemdCheck.Configure l {}).1.config.instance.UnitRegexStrings = none ∧
      (SystemdCheck.Configure l {}).1.config.instance.UnitRegexPatterns = none) := by
  rw [Configure_fresh l doc hc hi hd]
  refine ⟨rfl, rfl, rfl, ?_, ?_, ?_⟩
  · simp only [toList_compileAll]
  · intro hkey
    simp only [toList_compileAll, hkey]
    refine ⟨rfl, fun hall => ?_⟩
    have hlen := filterMap_length_of_all_ok l _ hall
    simp only [Option.getD_none, List.length_append, List.length_map, hlen]
    exact Nat.zero_add _
  · intro hdoc
    subst hdoc
    exact ⟨rfl, rfl, rfl⟩

theorem Configure_spec_witness :
    Slice.toList (SystemdCheck.Configure (testLoader docWithBadRegex)
        {}).1.config.instance.UnitRegexPatterns =
      ((Slice.toList (docWithBadRegex.unit_regex.getD none)).filterMap
        (fun s => ((testLoader docWithBadRegex).Compile s).toOption)).map some ∧
    (SystemdCheck.Configure (testLoader docWithBadRegex) {}).1.config.instance.UnitRegexPatterns =
      some [some (Regexp.mk "lvm2-.*"), some (Regexp.mk "cloud-.*")] ∧
    (SystemdCheck.Configure (testLoader testDoc) {}).1.config.instance.UnitNames =
      testDoc.unit_names.getD none :=
  ⟨((Configure_spec (testLoader docWithBadRegex) docWithBadRegex rfl rfl rfl).2.2.2.2.1
      rfl).1,
   by decide,
   (Configure_spec (testLoader testDoc) testDoc rfl rfl rfl).2.1⟩

end Systemd
